import Mathlib

/-!
Verification of the update-decision and recipe-patching logic of the
cursor-bin AUR updater.

The development shallowly embeds:
* the update detector of src/check.py (manual-release-bump detection,
  commit-based and version-based update decision, the new version / rel /
  commit fields of the decision record, and the fatal fallback-mode
  conflict exit);
* the recipe patcher of src/update_pkgbuild.py (the line-rewrite pass
  over the PKGBUILD, including the sha512sums block rewrite, and the
  electron-tag resolution pipeline with its lookup strategies and the
  electron28 fallback);
* the aggregation of the overall validation flag of
  src/validate_pkgbuild.py.

Strings are modelled with Lean String (whose data is a list of
characters); Python str.startswith, str.endswith, str.strip and int()
are modelled by pyStartsWith, pyEndsWith, pyStrip and pyInt below.
Network and filesystem probes are modelled by their outcomes (booleans,
or an Option value per attempt), since their results are data external
to the decision logic under verification.
-/

/-- Python s.startswith(p), modelled on the character list of the string
(src/check.py and src/update_pkgbuild.py use str.startswith for line
dispatch). -/
def pyStartsWith (s p : String) : Bool := p.data.isPrefixOf s.data

/-- Python s.endswith(p), modelled on the character list of the string. -/
def pyEndsWith (s p : String) : Bool := p.data.isSuffixOf s.data

/-- Python s.strip(): drop whitespace at both ends
(used by update_pkgbuild.py line 276: line.strip().endswith). -/
def pyStrip (s : String) : String :=
  ⟨((s.data.dropWhile Char.isWhitespace).reverse.dropWhile Char.isWhitespace).reverse⟩

/-- Python int() on the digit strings produced by the pkgrel regex
(src/check.py lines 75 and 93 capture only digits). -/
def pyInt (s : String) : Nat := s.data.foldl (fun n c => 10 * n + (c.toNat - 48)) 0

/-- Python truthiness of a string: non-empty. -/
def strTruthy (s : String) : Bool := s != ""

/-- Python truthiness of an optional string: present and non-empty
(None and the empty string are falsy). -/
def optTruthy : Option String → Bool
  | none => false
  | some s => strTruthy s

/-- Inputs of the decision section of src/check.py (module main,
lines 125-145): the remote release metadata, the local PKGBUILD fields
and the AUR reference snapshot.  The aur fields are optional because
get_aur_pkgbuild_info returns None, None, None on failure (lines 86-102);
the latest and local fields are plain strings because the main flow
raises before the decision when any of them is missing (lines 126-135). -/
structure CheckInput where
  latest_version : String
  latest_commit : String
  download_url : String
  local_version : String
  local_rel : String
  local_commit : String
  aur_version : Option String
  aur_rel : Option String
  aur_commit : Option String
deriving DecidableEq

/-- Environment configuration of src/check.py, lines 116-122.  vcmp is
the compare_versions oracle (lines 105-111): it wraps the external
packaging library and returns False on InvalidVersion, so it is passed
in as an opaque boolean comparison. -/
structure CheckConfig where
  version_protection : Bool
  commit_based_updates : Bool
  vcmp : String → String → Bool

/-- The decision record written to check_output.json
(src/check.py lines 228-242). -/
structure CheckOutput where
  update_needed : Bool
  local_version : String
  local_rel : String
  local_commit : String
  download_url : String
  new_version : String
  new_rel : String
  new_commit : String
  latest_version : String
  latest_commit : String
  aur_version : Option String
  aur_rel : Option String
  aur_commit : Option String
deriving DecidableEq

/-- Manual release update detection, src/check.py lines 148-154:
aur_version == local_version and aur_commit == local_commit and aur_rel
and local_rel and int(local_rel) > int(aur_rel). -/
def is_manual_rel_update (i : CheckInput) : Bool :=
  (i.aur_version == some i.local_version) &&
  (i.aur_commit == some i.local_commit) &&
  optTruthy i.aur_rel && strTruthy i.local_rel &&
  decide (pyInt (Option.getD i.aur_rel "") < pyInt i.local_rel)

/-- Commit delta trigger, src/check.py lines 160 and 181:
latest_commit and latest_commit != local_commit. -/
def commit_update_needed (i : CheckInput) : Bool :=
  strTruthy i.latest_commit && (i.latest_commit != i.local_commit)

/-- Version delta trigger of the fallback mode, src/check.py
lines 167-179 (with and without VERSION_PROTECTION). -/
def version_update_needed (cfg : CheckConfig) (i : CheckInput) : Bool :=
  if cfg.version_protection then
    strTruthy i.latest_version && (i.latest_version != i.local_version) &&
      cfg.vcmp i.latest_version i.local_version
  else
    strTruthy i.latest_version && (i.latest_version != i.local_version)

/-- The output dictionary of src/check.py lines 228-242: passthrough of
the inputs plus update_needed and the decided new fields. -/
def mkOutput (i : CheckInput) (un : Bool) (nv nr nc : String) : CheckOutput :=
  { update_needed := un, local_version := i.local_version, local_rel := i.local_rel,
    local_commit := i.local_commit, download_url := i.download_url,
    new_version := nv, new_rel := nr, new_commit := nc,
    latest_version := i.latest_version, latest_commit := i.latest_commit,
    aur_version := i.aur_version, aur_rel := i.aur_rel, aur_commit := i.aur_commit }

/-- The decision logic of src/check.py lines 147-242.  none models
sys.exit(1) of the fallback-mode conflict branch (lines 208-215), which
terminates before the decision record is written; the final dead branch
(update needed with no trigger attributable) models the NameError that
the outer handler turns into sys.exit(1) (lines 251-253). -/
def check_decision (cfg : CheckConfig) (i : CheckInput) : Option CheckOutput :=
  let man := is_manual_rel_update i
  let cun := commit_update_needed i
  if cfg.commit_based_updates then
    let un := cun || man
    if un then
      if man then
        some (mkOutput i un i.local_version i.local_rel i.local_commit)
      else
        let nr := if i.latest_version != i.local_version then "1"
                  else toString (pyInt i.local_rel + 1)
        some (mkOutput i un i.latest_version nr i.latest_commit)
    else
      some (mkOutput i un i.local_version i.local_rel i.local_commit)
  else
    let vun := version_update_needed cfg i
    let un := vun || cun || man
    if un then
      if vun then some (mkOutput i un i.latest_version "1" i.latest_commit)
      else if cun then none
      else if man then some (mkOutput i un i.local_version i.local_rel i.local_commit)
      else none
    else
      some (mkOutput i un i.local_version i.local_rel i.local_commit)

/-- An entry of the top-level dependencies map of a package-lock
manifest (src/update_pkgbuild.py line 76 reads its version field).  The
version field is optional because the manifest may omit it; the
unguarded subscript read of an absent field raises KeyError in the
source. -/
structure DepEntry where
  version : Option String
deriving DecidableEq

/-- An entry of the packages map of a package-lock manifest.  The root
entry carries dependencies and devDependencies whose electron values are
bare version strings (lines 84 and 88); the node_modules/electron entry
carries a version field (line 95), optional here because the manifest
may omit it, in which case the unguarded subscript read raises
KeyError in the source. -/
structure PackageEntry where
  version : Option String
  dependencies : Option (List (String × String))
  devDependencies : Option (List (String × String))
deriving DecidableEq

/-- The shape of a parsed package-lock.json as read by
get_electron_version (src/update_pkgbuild.py lines 70-110): an optional
top-level dependencies map and an optional packages map.  Maps are
association lists; an absent key is an absent entry. -/
structure PackageLock where
  dependencies : Option (List (String × DepEntry))
  packages : Option (List (String × PackageEntry))
deriving DecidableEq

/-- Key lookup in the optional top-level dependencies map. -/
def lookupDep (m : Option (List (String × DepEntry))) (k : String) : Option DepEntry :=
  m.bind (fun l => l.lookup k)

/-- Key lookup in the optional packages map. -/
def lookupPkg (m : Option (List (String × PackageEntry))) (k : String) : Option PackageEntry :=
  m.bind (fun l => l.lookup k)

/-- Key lookup in an optional string-valued dependency map. -/
def lookupStr (m : Option (List (String × String))) (k : String) : Option String :=
  m.bind (fun l => l.lookup k)

/-- Outcome of the electron lookup on one parsed manifest.  found is a
value assigned at lines 76, 84, 88 or 95 of src/update_pkgbuild.py;
noValue is the ValueError raised at line 110, which IS in the except
tuple at line 120 and is caught and retried; keyError is the KeyError
raised by the unguarded ['version'] subscript at line 76 or line 95
when the reached entry lacks the field — KeyError is NOT in the except
tuple at line 120, so it escapes get_electron_version uncaught. -/
inductive LookupResult where
  | found (v : String)
  | noValue
  | keyError
deriving DecidableEq

/-- The electron lookup of one attempt, src/update_pkgbuild.py
lines 70-110.  Method 1 (root dependencies, line 75) is tried first;
otherwise, when the packages map has a root entry (line 80), its
dependencies then devDependencies are consulted (lines 83-89) and
nothing else is: Method 3 (line 94) sits on the elif chain of the
Method 2 shape condition, so it is reached only when the root packages
entry is absent.  A reached entry without a version field is the
uncaught KeyError of line 76 or line 95. -/
def find_electron_version (data : PackageLock) : LookupResult :=
  match lookupDep data.dependencies "electron" with
  | some e =>
    match e.version with
    | some v => .found v
    | none => .keyError
  | none =>
    match lookupPkg data.packages "" with
    | some root =>
      match lookupStr root.dependencies "electron" with
      | some v => .found v
      | none =>
        match lookupStr root.devDependencies "electron" with
        | some v => .found v
        | none => .noValue
    | none =>
      match lookupPkg data.packages "node_modules/electron" with
      | some e =>
        match e.version with
        | some v => .found v
        | none => .keyError
      | none => .noValue

/-- Major-version tag formatting, src/update_pkgbuild.py lines 100-102:
electron + the text before the first dot. -/
def electronTag (v : String) : String := "electron" ++ ((v.splitOn ".").headD "")

/-- Outcome of the resolver's retry loop: a returned tag, the None
return after the last attempt (line 128), or an uncaught exception
escaping the function. -/
inductive ResolveOutcome where
  | tag (v : String)
  | failed
  | crashed
deriving DecidableEq

/-- The retry loop of get_electron_version, src/update_pkgbuild.py
lines 36-128.  Each element of attempts is the outcome of one download
attempt (at most 1 + max_retries in the program): none for a network,
extraction or parse failure, some data for a parsed manifest.  A lookup
yielding no value raises ValueError, which is caught and retried
(lines 120-125); after the last attempt the function returns None
(line 128); a lookup hitting the unguarded version read raises KeyError,
which is not caught and aborts the loop immediately. -/
def get_electron_version (attempts : List (Option PackageLock)) : ResolveOutcome :=
  match attempts with
  | [] => .failed
  | none :: rest => get_electron_version rest
  | some data :: rest =>
    match find_electron_version data with
    | .found v => .tag (electronTag v)
    | .noValue => get_electron_version rest
    | .keyError => .crashed

/-- The electron tag used by the patcher, src/update_pkgbuild.py
lines 241-255: when the vscode version was extracted, the resolver
result or the electron28 fallback on a None return; otherwise the
electron28 fallback.  The none result models an uncaught exception
propagating out of the resolver into the top-level handler of
update_pkgbuild.py (lines 328-332), which exits 1 and aborts the patch
run with no fallback. -/
def chooseElectron (vscode_version : Option String) (attempts : List (Option PackageLock)) :
    Option String :=
  match vscode_version with
  | some _ =>
    match get_electron_version attempts with
    | .tag e => some e
    | .failed => some "electron28"
    | .crashed => none
  | none => some "electron28"

/-- A single-quote character as a string (the PKGBUILD checksum entries
are single-quoted). -/
def sglq : String := String.singleton (Char.ofNat 39)

/-- The inputs of the line-rewrite pass of update_pkgbuild
(src/update_pkgbuild.py lines 212-255): the decision record's new
fields, the SHA-512 of the downloaded artifact, and the resolved
electron tag. -/
structure PatchCtx where
  new_version : String
  new_rel : String
  new_commit : String
  deb_sha512 : String
  electron_version : String
deriving DecidableEq

/-- Rewritten pkgver line, src/update_pkgbuild.py line 262. -/
def pkgverLine (c : PatchCtx) : String := "pkgver=" ++ (c.new_version ++ "\n")

/-- Rewritten pkgrel line, line 264. -/
def pkgrelLine (c : PatchCtx) : String := "pkgrel=" ++ (c.new_rel ++ "\n")

/-- Rewritten commit line with its provenance comment, line 266. -/
def commitLine (c : PatchCtx) : String :=
  "_commit=" ++ (c.new_commit ++ (" # sed" ++ (sglq ++ "ded at GitHub WF\n")))

/-- Rewritten primary source line, line 269. -/
def sourceLine (c : PatchCtx) : String :=
  "source=(\"https://downloads.cursor.com/production/" ++
    (c.new_commit ++ ("/linux/x64/deb/amd64/deb/cursor_" ++ (c.new_version ++ "_amd64.deb\"\n")))

/-- Rewritten sha512sums opening line holding the computed hash,
line 274. -/
def shaOpenLine (c : PatchCtx) : String :=
  "sha512sums=(" ++ (sglq ++ (c.deb_sha512 ++ (sglq ++ "\n")))

/-- The fixed hard-coded companion checksum line appended when the
sha512sums block is closed, line 278. -/
def secondShaLine : String :=
  "            " ++ (sglq ++ ("937299c6cb6be2f8d25f7dbc95cf77423875c5f8353b8bd6cd7cc8e5603cbf8405b14dbf8bd615db2e3b36ed680fc8e1909410815f7f8587b7267a699e00ab37" ++ (sglq ++ ")\n")))

/-- Rewritten electron tag line, line 285. -/
def electronLine (c : PatchCtx) : String := "  _electron=" ++ (c.electron_version ++ "\n")

/-- The comment line kept verbatim, line 280. -/
def electronCommentStr : String := "  # Electron version determined during build process"

/-- The echo line kept verbatim, line 287. -/
def echoStr : String := "  echo $_electron"

/-- The second source line kept verbatim, line 270. -/
def gitlabStr : String := "https://gitlab.archlinux.org"

/-- The line-rewrite loop of update_pkgbuild, src/update_pkgbuild.py
lines 257-290: one left-to-right pass with the in_sha flag, dispatching
each line on the elif chain in source order; a line matching no branch
is kept when in_sha is false (line 289) and dropped otherwise. -/
def updateLoop (c : PatchCtx) : Bool → List String → List String
  | _, [] => []
  | inSha, line :: rest =>
    if pyStartsWith line "pkgver=" then pkgverLine c :: updateLoop c inSha rest
    else if pyStartsWith line "pkgrel=" then pkgrelLine c :: updateLoop c inSha rest
    else if pyStartsWith line "_commit=" then commitLine c :: updateLoop c inSha rest
    else if pyStartsWith line "source=" then sourceLine c :: updateLoop c inSha rest
    else if pyStartsWith line gitlabStr then line :: updateLoop c inSha rest
    else if pyStartsWith line "sha512sums=" then shaOpenLine c :: updateLoop c true rest
    else if inSha && pyEndsWith (pyStrip line) ")" then secondShaLine :: updateLoop c false rest
    else if pyStartsWith line electronCommentStr then line :: updateLoop c inSha rest
    else if pyStartsWith line "  _electron=" then electronLine c :: updateLoop c inSha rest
    else if pyStartsWith line echoStr then line :: updateLoop c inSha rest
    else if !inSha then line :: updateLoop c inSha rest
    else updateLoop c inSha rest

/-- The pure line transformation of update_pkgbuild (the loop started
with in_sha false, src/update_pkgbuild.py lines 257-297), for a fixed
artifact hash and resolved electron tag held in the context. -/
def update_pkgbuild (c : PatchCtx) (pkgbuild_lines : List String) : List String :=
  updateLoop c false pkgbuild_lines

/-- The single-line effect of the loop outside a sha512sums block, for a
line that does not open one: same elif chain without the two sha
branches. -/
def rewriteLine (c : PatchCtx) (line : String) : String :=
  if pyStartsWith line "pkgver=" then pkgverLine c
  else if pyStartsWith line "pkgrel=" then pkgrelLine c
  else if pyStartsWith line "_commit=" then commitLine c
  else if pyStartsWith line "source=" then sourceLine c
  else if pyStartsWith line gitlabStr then line
  else if pyStartsWith line electronCommentStr then line
  else if pyStartsWith line "  _electron=" then electronLine c
  else if pyStartsWith line echoStr then line
  else line

/-- A line matching none of the six field prefixes checked before the
in_sha closing branch of the loop. -/
def nonSpecial6 (line : String) : Bool :=
  !(pyStartsWith line "pkgver=") && !(pyStartsWith line "pkgrel=") &&
  !(pyStartsWith line "_commit=") && !(pyStartsWith line "source=") &&
  !(pyStartsWith line gitlabStr) && !(pyStartsWith line "sha512sums=")

/-- An interior line of a sha512sums block: matches no rewritten branch
and does not close the block, hence is suppressed by the loop. -/
def shaInteriorLine (line : String) : Bool :=
  nonSpecial6 line && !(pyEndsWith (pyStrip line) ")") &&
  !(pyStartsWith line electronCommentStr) && !(pyStartsWith line "  _electron=") &&
  !(pyStartsWith line echoStr)

/-- A closing line of a sha512sums block: matches no earlier branch and
its stripped text ends with the closing parenthesis. -/
def shaCloserLine (line : String) : Bool :=
  nonSpecial6 line && pyEndsWith (pyStrip line) ")"

/-- Outcomes of the individual checks of validate_pkgbuild
(src/validate_pkgbuild.py lines 387-719), abstracted to booleans: the
regex and probe results feeding each numbered check, in source order.
The last five fields are the outcomes of the advisory probes
(checks 13, 16, 18 and 19 and the detection-unavailable case of
check 12) whose failure the code records without touching the flag. -/
structure ValidationInputs where
  version_found : Bool
  version_format_ok : Bool
  version_matches : Bool
  pkgrel_found : Bool
  pkgrel_format_ok : Bool
  pkgrel_is_one : Bool
  commit_found : Bool
  commit_format_ok : Bool
  commit_matches : Bool
  electron_expected : Bool
  checksum_found : Bool
  checksum_format_ok : Bool
  checksum_matches : Bool
  titlebar_present : Bool
  deb_format_ok : Bool
  extraction_ok : Bool
  binary_link_ok : Bool
  cursor_sh_generation_ok : Bool
  code_sh_source_ok : Bool
  electron_detection_working : Bool
  electron_version_match : Bool
  tools_available : Bool
  all_urls_accessible : Bool
  command_syntax_valid : Bool
  code_sh_accessible : Bool
  code_sh_content_valid : Bool
  checksum_verified : Bool
  titlebar_sed_works : Bool
  cursor_sh_transformation_works : Bool
deriving DecidableEq

/-- The validation_successful flag as computed by validate_pkgbuild
(src/validate_pkgbuild.py lines 390-719): it starts true and each
numbered check's failing branch that executes
results[validation_successful] = False is modelled by the matching
conditional; the advisory branches of checks 12 (detection unavailable),
13, 16, 18 and 19 leave the flag untouched, exactly as the commented-out
assignments in the source do. -/
def validation_successful (i : ValidationInputs) : Bool :=
  let v := true
  let v := if i.version_found then
             (if i.version_format_ok then (if i.version_matches then v else false) else false)
           else false
  let v := if i.pkgrel_found then
             (if i.pkgrel_format_ok then (if i.pkgrel_is_one then v else false) else false)
           else false
  let v := if i.commit_found then
             (if i.commit_format_ok then (if i.commit_matches then v else false) else false)
           else false
  let v := if i.electron_expected then v else false
  let v := if i.checksum_found then
             (if i.checksum_format_ok then (if i.checksum_matches then v else false) else false)
           else false
  let v := if i.titlebar_present then v else false
  let v := if i.deb_format_ok then v else false
  let v := if i.extraction_ok then v else false
  let v := if i.binary_link_ok then v else false
  let v := if i.cursor_sh_generation_ok then v else false
  let v := if i.code_sh_source_ok then v else false
  let v := if i.electron_detection_working then
             (if i.electron_version_match then v else false)
           else v
  let v := if i.tools_available then v else false
  let v := if i.all_urls_accessible then v else false
  let v := if i.command_syntax_valid then v else false
  v

/-- Concrete input refuting the direction of the rel comparison stated
for the manual-bump flag: aur rel 2 strictly higher than local rel 1,
same version and commit. -/
def i1c : CheckInput :=
  { latest_version := "1.0.0", latest_commit := "c0de", download_url := "u",
    local_version := "1.0.0", local_rel := "1", local_commit := "c0de",
    aur_version := some "1.0.0", aur_rel := some "2", aur_commit := some "c0de" }

/-- Concrete input on which the manual-bump flag is true: local rel 2
strictly higher than aur rel 1. -/
def i1w : CheckInput :=
  { latest_version := "1.0.0", latest_commit := "c0de", download_url := "u",
    local_version := "1.0.0", local_rel := "2", local_commit := "c0de",
    aur_version := some "1.0.0", aur_rel := some "1", aur_commit := some "c0de" }

/-- Commit-based configuration for the simultaneous-trigger scenario. -/
def cfg2 : CheckConfig :=
  { version_protection := false, commit_based_updates := true, vcmp := fun _ _ => false }

/-- Concrete input with both triggers true at once: the remote commit
differs from local (commit trigger) and the aur snapshot matches local
with a lower rel (manual-bump trigger). -/
def i2 : CheckInput :=
  { latest_version := "2.0.0", latest_commit := "cbbb", download_url := "u",
    local_version := "1.0.0", local_rel := "2", local_commit := "caaa",
    aur_version := some "1.0.0", aur_rel := some "1", aur_commit := some "caaa" }

/-- Commit-based configuration of the manual-bump test scenario. -/
def cfg3 : CheckConfig :=
  { version_protection := false, commit_based_updates := true, vcmp := fun _ _ => false }

/-- The manual-bump test scenario: local 1.0.0 rel 2 commit C, aur 1.0.0
rel 1 commit C, remote 1.0.0 commit C. -/
def i3 : CheckInput :=
  { latest_version := "1.0.0", latest_commit := "cccc", download_url := "u",
    local_version := "1.0.0", local_rel := "2", local_commit := "cccc",
    aur_version := some "1.0.0", aur_rel := some "1", aur_commit := some "cccc" }

/-- Commit-based configuration for the same-version rebuild scenario. -/
def cfg4 : CheckConfig :=
  { version_protection := false, commit_based_updates := true, vcmp := fun _ _ => false }

/-- Same-version rebuild scenario: local 1.0.0 rel 1 commit c1aa,
remote 1.0.0 commit c2bb, no usable aur snapshot. -/
def i4 : CheckInput :=
  { latest_version := "1.0.0", latest_commit := "c2bb", download_url := "u",
    local_version := "1.0.0", local_rel := "1", local_commit := "c1aa",
    aur_version := none, aur_rel := none, aur_commit := none }

/-- Version-based fallback configuration. -/
def cfg5 : CheckConfig :=
  { version_protection := false, commit_based_updates := false, vcmp := fun _ _ => false }

/-- Fallback-mode conflict scenario: same version 1.0.0, commits c1 and
c2 differ. -/
def i5 : CheckInput :=
  { latest_version := "1.0.0", latest_commit := "c2", download_url := "u",
    local_version := "1.0.0", local_rel := "1", local_commit := "c1",
    aur_version := none, aur_rel := none, aur_commit := none }

/-- Patch context with a concrete 128-hex computed hash and the
electron34 tag. -/
def ctx6 : PatchCtx :=
  { new_version := "1.5.9", new_rel := "1",
    new_commit := "de327274300c6f38ec9f4240d11e82c3b0660b29",
    deb_sha512 := "3d30150e4868b80ef6aeb012ffdb5e281ed41e3651f2b32f3d92baa284d990c11932df5c483d2eafc7ef48a1dd1047f888503bbe1f8906c8087fe1452dbe2e3b",
    electron_version := "electron34" }

/-- Validation outcomes with every probe and match succeeding. -/
def v7all : ValidationInputs :=
  { version_found := true, version_format_ok := true, version_matches := true,
    pkgrel_found := true, pkgrel_format_ok := true, pkgrel_is_one := true,
    commit_found := true, commit_format_ok := true, commit_matches := true,
    electron_expected := true, checksum_found := true, checksum_format_ok := true,
    checksum_matches := true, titlebar_present := true, deb_format_ok := true,
    extraction_ok := true, binary_link_ok := true, cursor_sh_generation_ok := true,
    code_sh_source_ok := true, electron_detection_working := true,
    electron_version_match := true, tools_available := true,
    all_urls_accessible := true, command_syntax_valid := true,
    code_sh_accessible := true, code_sh_content_valid := true,
    checksum_verified := true, titlebar_sed_works := true,
    cursor_sh_transformation_works := true }

/-- Validation outcomes in which only the live URL-reachability probe
fails. -/
def v7url : ValidationInputs := { v7all with all_urls_accessible := false }

/-- Validation outcomes in which only the tool-availability check
fails. -/
def v7tools : ValidationInputs := { v7all with tools_available := false }

/-- A manifest yielding no electron value on any strategy. -/
def lock8 : PackageLock := { dependencies := none, packages := none }

/-- A manifest with no top-level dependencies map and no root packages
entry, whose packages map holds a node_modules/electron entry WITHOUT a
version field: the strategy chain reaches the unguarded version read of
src/update_pkgbuild.py line 95. -/
def lockC8 : PackageLock :=
  { dependencies := none,
    packages := some
      [("node_modules/electron",
        { version := none, dependencies := none, devDependencies := none })] }

/-- A manifest whose packages map has a root entry without any electron
dependency, while the node_modules/electron entry carries a version. -/
def lock9 : PackageLock :=
  { dependencies := none,
    packages := some
      [("", { version := none, dependencies := none, devDependencies := none }),
       ("node_modules/electron",
        { version := some "30.0.0", dependencies := none, devDependencies := none })] }

/-- The root packages entry of lock9. -/
def root9 : PackageEntry := { version := none, dependencies := none, devDependencies := none }

/-- Patch context used for the idempotence instance. -/
def ctx10 : PatchCtx :=
  { new_version := "1.0.1", new_rel := "1", new_commit := "abcd",
    deb_sha512 := "ff00", electron_version := "electron28" }

/-- Recipe lines used for the idempotence instance, covering a rewritten
field, a pass-through line and a sha512sums block. -/
def lines10 : List String :=
  ["pkgver=1.0.0\n", "pkgrel=3\n", "_commit=old\n", "junk\n",
   "sha512sums=(old\n", "  second)\n", "  _electron=electron30\n", "tail\n"]

theorem isPrefixOf_app (l t : List Char) : l.isPrefixOf (l ++ t) = true := by
  induction l with
  | nil => simp
  | cons a as ih => simp [List.isPrefixOf_cons₂, ih]

theorem isPrefixOf_trans {l₁ l₂ l₃ : List Char} (h₁ : l₁.isPrefixOf l₂ = true)
    (h₂ : l₂.isPrefixOf l₃ = true) : l₁.isPrefixOf l₃ = true := by
  induction l₃ generalizing l₁ l₂ with
  | nil => cases l₂ <;> cases l₁ <;> simp_all
  | cons c cs ih =>
    cases l₁ with
    | nil => simp
    | cons a as =>
      cases l₂ with
      | nil => simp_all
      | cons b bs =>
        rw [List.isPrefixOf_cons₂] at h₁ h₂ ⊢
        simp only [Bool.and_eq_true, beq_iff_eq] at h₁ h₂ ⊢
        exact ⟨h₁.1.trans h₂.1, ih h₁.2 h₂.2⟩

theorem isPrefixOf_total {s l₁ l₂ : List Char} (h₁ : l₁.isPrefixOf s = true)
    (h₂ : l₂.isPrefixOf s = true) :
    l₁.isPrefixOf l₂ = true ∨ l₂.isPrefixOf l₁ = true := by
  induction s generalizing l₁ l₂ with
  | nil => cases l₁ <;> cases l₂ <;> simp_all
  | cons c cs ih =>
    cases l₁ with
    | nil => left; simp
    | cons a as =>
      cases l₂ with
      | nil => right; simp
      | cons b bs =>
        rw [List.isPrefixOf_cons₂] at h₁ h₂ ⊢
        rw [List.isPrefixOf_cons₂]
        simp only [Bool.and_eq_true, beq_iff_eq] at h₁ h₂ ⊢
        rcases ih h₁.2 h₂.2 with h | h
        · exact Or.inl ⟨h₁.1.trans h₂.1.symm, h⟩
        · exact Or.inr ⟨h₂.1.trans h₁.1.symm, h⟩

theorem pyStartsWith_append_of (p s q : String) (h : q.data.isPrefixOf p.data = true) :
    pyStartsWith (p ++ s) q = true := by
  unfold pyStartsWith
  rw [String.data_append]
  exact isPrefixOf_trans h (isPrefixOf_app _ _)

theorem pyStartsWith_false_of {s : String} (p₁ p₂ : String) (h : pyStartsWith s p₁ = true)
    (h₁ : p₁.data.isPrefixOf p₂.data = false) (h₂ : p₂.data.isPrefixOf p₁.data = false) :
    pyStartsWith s p₂ = false := by
  unfold pyStartsWith at *
  cases hq : p₂.data.isPrefixOf s.data with
  | false => rfl
  | true =>
    rcases isPrefixOf_total h hq with hh | hh
    · rw [hh] at h₁; cases h₁
    · rw [hh] at h₂; cases h₂

theorem pkgverLine_b1 (c : PatchCtx) : pyStartsWith (pkgverLine c) "pkgver=" = true :=
  pyStartsWith_append_of _ _ _ (by decide)

theorem pkgrelLine_b1 (c : PatchCtx) : pyStartsWith (pkgrelLine c) "pkgver=" = false :=
  pyStartsWith_false_of "pkgrel=" _ (pyStartsWith_append_of _ _ _ (by decide)) (by decide) (by decide)

theorem pkgrelLine_b2 (c : PatchCtx) : pyStartsWith (pkgrelLine c) "pkgrel=" = true :=
  pyStartsWith_append_of _ _ _ (by decide)

theorem commitLine_b1 (c : PatchCtx) : pyStartsWith (commitLine c) "pkgver=" = false :=
  pyStartsWith_false_of "_commit=" _ (pyStartsWith_append_of _ _ _ (by decide)) (by decide) (by decide)

theorem commitLine_b2 (c : PatchCtx) : pyStartsWith (commitLine c) "pkgrel=" = false :=
  pyStartsWith_false_of "_commit=" _ (pyStartsWith_append_of _ _ _ (by decide)) (by decide) (by decide)

theorem commitLine_b3 (c : PatchCtx) : pyStartsWith (commitLine c) "_commit=" = true :=
  pyStartsWith_append_of _ _ _ (by decide)

theorem sourceLine_b1 (c : PatchCtx) : pyStartsWith (sourceLine c) "pkgver=" = false :=
  pyStartsWith_false_of "source=(\"https://downloads.cursor.com/production/" _
    (pyStartsWith_append_of _ _ _ (by decide)) (by decide) (by decide)

theorem sourceLine_b2 (c : PatchCtx) : pyStartsWith (sourceLine c) "pkgrel=" = false :=
  pyStartsWith_false_of "source=(\"https://downloads.cursor.com/production/" _
    (pyStartsWith_append_of _ _ _ (by decide)) (by decide) (by decide)

theorem sourceLine_b3 (c : PatchCtx) : pyStartsWith (sourceLine c) "_commit=" = false :=
  pyStartsWith_false_of "source=(\"https://downloads.cursor.com/production/" _
    (pyStartsWith_append_of _ _ _ (by decide)) (by decide) (by decide)

theorem sourceLine_b4 (c : PatchCtx) : pyStartsWith (sourceLine c) "source=" = true :=
  pyStartsWith_append_of _ _ _ (by decide)

theorem shaOpenLine_b1 (c : PatchCtx) : pyStartsWith (shaOpenLine c) "pkgver=" = false :=
  pyStartsWith_false_of "sha512sums=(" _ (pyStartsWith_append_of _ _ _ (by decide)) (by decide) (by decide)

theorem shaOpenLine_b2 (c : PatchCtx) : pyStartsWith (shaOpenLine c) "pkgrel=" = false :=
  pyStartsWith_false_of "sha512sums=(" _ (pyStartsWith_append_of _ _ _ (by decide)) (by decide) (by decide)

theorem shaOpenLine_b3 (c : PatchCtx) : pyStartsWith (shaOpenLine c) "_commit=" = false :=
  pyStartsWith_false_of "sha512sums=(" _ (pyStartsWith_append_of _ _ _ (by decide)) (by decide) (by decide)

theorem shaOpenLine_b4 (c : PatchCtx) : pyStartsWith (shaOpenLine c) "source=" = false :=
  pyStartsWith_false_of "sha512sums=(" _ (pyStartsWith_append_of _ _ _ (by decide)) (by decide) (by decide)

theorem shaOpenLine_b5 (c : PatchCtx) : pyStartsWith (shaOpenLine c) gitlabStr = false :=
  pyStartsWith_false_of "sha512sums=(" _ (pyStartsWith_append_of _ _ _ (by decide)) (by decide) (by decide)

theorem shaOpenLine_b6 (c : PatchCtx) : pyStartsWith (shaOpenLine c) "sha512sums=" = true :=
  pyStartsWith_append_of _ _ _ (by decide)

theorem secondShaLine_b1 : pyStartsWith secondShaLine "pkgver=" = false := by decide
theorem secondShaLine_b2 : pyStartsWith secondShaLine "pkgrel=" = false := by decide
theorem secondShaLine_b3 : pyStartsWith secondShaLine "_commit=" = false := by decide
theorem secondShaLine_b4 : pyStartsWith secondShaLine "source=" = false := by decide
theorem secondShaLine_b5 : pyStartsWith secondShaLine gitlabStr = false := by decide
theorem secondShaLine_b6 : pyStartsWith secondShaLine "sha512sums=" = false := by decide
theorem secondShaLine_close : pyEndsWith (pyStrip secondShaLine) ")" = true := by decide
theorem secondShaLine_b8 : pyStartsWith secondShaLine electronCommentStr = false := by decide
theorem secondShaLine_b9 : pyStartsWith secondShaLine "  _electron=" = false := by decide
theorem secondShaLine_b10 : pyStartsWith secondShaLine echoStr = false := by decide

theorem electronLine_b1 (c : PatchCtx) : pyStartsWith (electronLine c) "pkgver=" = false :=
  pyStartsWith_false_of "  _electron=" _ (pyStartsWith_append_of _ _ _ (by decide)) (by decide) (by decide)

theorem electronLine_b2 (c : PatchCtx) : pyStartsWith (electronLine c) "pkgrel=" = false :=
  pyStartsWith_false_of "  _electron=" _ (pyStartsWith_append_of _ _ _ (by decide)) (by decide) (by decide)

theorem electronLine_b3 (c : PatchCtx) : pyStartsWith (electronLine c) "_commit=" = false :=
  pyStartsWith_false_of "  _electron=" _ (pyStartsWith_append_of _ _ _ (by decide)) (by decide) (by decide)

theorem electronLine_b4 (c : PatchCtx) : pyStartsWith (electronLine c) "source=" = false :=
  pyStartsWith_false_of "  _electron=" _ (pyStartsWith_append_of _ _ _ (by decide)) (by decide) (by decide)

theorem electronLine_b5 (c : PatchCtx) : pyStartsWith (electronLine c) gitlabStr = false :=
  pyStartsWith_false_of "  _electron=" _ (pyStartsWith_append_of _ _ _ (by decide)) (by decide) (by decide)

theorem electronLine_b6 (c : PatchCtx) : pyStartsWith (electronLine c) "sha512sums=" = false :=
  pyStartsWith_false_of "  _electron=" _ (pyStartsWith_append_of _ _ _ (by decide)) (by decide) (by decide)

theorem electronLine_b8 (c : PatchCtx) : pyStartsWith (electronLine c) electronCommentStr = false :=
  pyStartsWith_false_of "  _electron=" _ (pyStartsWith_append_of _ _ _ (by decide)) (by decide) (by decide)

theorem electronLine_b9 (c : PatchCtx) : pyStartsWith (electronLine c) "  _electron=" = true :=
  pyStartsWith_append_of _ _ _ (by decide)

theorem updateLoop_idem (c : PatchCtx)
    (he : pyEndsWith (pyStrip (electronLine c)) ")" = false) :
    ∀ (xs : List String) (b : Bool),
      updateLoop c b (updateLoop c b xs) = updateLoop c b xs := by
  intro xs
  induction xs with
  | nil => intro b; rfl
  | cons x rest ih =>
    intro b
    by_cases h1 : pyStartsWith x "pkgver="
    · simp [updateLoop, h1, pkgverLine_b1, ih]
    by_cases h2 : pyStartsWith x "pkgrel="
    · simp [updateLoop, h1, h2, pkgrelLine_b1, pkgrelLine_b2, ih]
    by_cases h3 : pyStartsWith x "_commit="
    · simp [updateLoop, h1, h2, h3, commitLine_b1, commitLine_b2, commitLine_b3, ih]
    by_cases h4 : pyStartsWith x "source="
    · simp [updateLoop, h1, h2, h3, h4, sourceLine_b1, sourceLine_b2, sourceLine_b3,
        sourceLine_b4, ih]
    by_cases h5 : pyStartsWith x gitlabStr
    · simp [updateLoop, h1, h2, h3, h4, h5, ih]
    by_cases h6 : pyStartsWith x "sha512sums="
    · simp [updateLoop, h1, h2, h3, h4, h5, h6, shaOpenLine_b1, shaOpenLine_b2, shaOpenLine_b3,
        shaOpenLine_b4, shaOpenLine_b5, shaOpenLine_b6, ih]
    by_cases h7 : (b && pyEndsWith (pyStrip x) ")") = true
    · have hb : b = true := (Bool.and_eq_true _ _ |>.mp h7).1
      subst hb
      simp [updateLoop, h1, h2, h3, h4, h5, h6, h7, secondShaLine_b1, secondShaLine_b2,
        secondShaLine_b3, secondShaLine_b4, secondShaLine_b5, secondShaLine_b6,
        secondShaLine_close, ih]
    by_cases h8 : pyStartsWith x electronCommentStr
    · simp [updateLoop, h1, h2, h3, h4, h5, h6, h7, h8, ih]
    by_cases h9 : pyStartsWith x "  _electron="
    · simp [updateLoop, h1, h2, h3, h4, h5, h6, h7, h8, h9, he, electronLine_b1, electronLine_b2,
        electronLine_b3, electronLine_b4, electronLine_b5, electronLine_b6, electronLine_b8,
        electronLine_b9, ih]
    by_cases h10 : pyStartsWith x echoStr
    · simp [updateLoop, h1, h2, h3, h4, h5, h6, h7, h8, h9, h10, ih]
    cases b with
    | false => simp [updateLoop, h1, h2, h3, h4, h5, h6, h7, h8, h9, h10, ih]
    | true => simp [updateLoop, h1, h2, h3, h4, h5, h6, h7, h8, h9, h10, ih]

theorem loop_false_cons (c : PatchCtx) (line : String) (rest : List String)
    (h : pyStartsWith line "sha512sums=" = false) :
    updateLoop c false (line :: rest) = rewriteLine c line :: updateLoop c false rest := by
  by_cases h1 : pyStartsWith line "pkgver="
  · simp [updateLoop, rewriteLine, h1]
  by_cases h2 : pyStartsWith line "pkgrel="
  · simp [updateLoop, rewriteLine, h1, h2]
  by_cases h3 : pyStartsWith line "_commit="
  · simp [updateLoop, rewriteLine, h1, h2, h3]
  by_cases h4 : pyStartsWith line "source="
  · simp [updateLoop, rewriteLine, h1, h2, h3, h4]
  by_cases h5 : pyStartsWith line gitlabStr
  · simp [updateLoop, rewriteLine, h1, h2, h3, h4, h5]
  by_cases h8 : pyStartsWith line electronCommentStr
  · simp [updateLoop, rewriteLine, h1, h2, h3, h4, h5, h, h8]
  by_cases h9 : pyStartsWith line "  _electron="
  · simp [updateLoop, rewriteLine, h1, h2, h3, h4, h5, h, h8, h9]
  by_cases h10 : pyStartsWith line echoStr
  · simp [updateLoop, rewriteLine, h1, h2, h3, h4, h5, h, h8, h9, h10]
  simp [updateLoop, rewriteLine, h1, h2, h3, h4, h5, h, h8, h9, h10]

theorem loop_false_append (c : PatchCtx) (pre rest : List String)
    (h : ∀ l ∈ pre, pyStartsWith l "sha512sums=" = false) :
    updateLoop c false (pre ++ rest) = pre.map (rewriteLine c) ++ updateLoop c false rest := by
  induction pre with
  | nil => simp
  | cons l ls ih =>
    rw [List.cons_append, loop_false_cons c l _ (h l (List.mem_cons_self l ls))]
    simp only [List.map_cons, List.cons_append, List.cons.injEq, true_and]
    exact ih (fun m hm => h m (List.mem_cons_of_mem l hm))

theorem loop_open (c : PatchCtx) (line : String) (rest : List String) (b : Bool)
    (h : pyStartsWith line "sha512sums=" = true) :
    updateLoop c b (line :: rest) = shaOpenLine c :: updateLoop c true rest := by
  have n1 : pyStartsWith line "pkgver=" = false :=
    pyStartsWith_false_of "sha512sums=" _ h (by decide) (by decide)
  have n2 : pyStartsWith line "pkgrel=" = false :=
    pyStartsWith_false_of "sha512sums=" _ h (by decide) (by decide)
  have n3 : pyStartsWith line "_commit=" = false :=
    pyStartsWith_false_of "sha512sums=" _ h (by decide) (by decide)
  have n4 : pyStartsWith line "source=" = false :=
    pyStartsWith_false_of "sha512sums=" _ h (by decide) (by decide)
  have n5 : pyStartsWith line gitlabStr = false :=
    pyStartsWith_false_of "sha512sums=" _ h (by decide) (by decide)
  simp [updateLoop, n1, n2, n3, n4, n5, h]

theorem loop_true_drop (c : PatchCtx) (line : String) (rest : List String)
    (h : shaInteriorLine line = true) :
    updateLoop c true (line :: rest) = updateLoop c true rest := by
  simp only [shaInteriorLine, nonSpecial6, Bool.and_eq_true, Bool.not_eq_true'] at h
  obtain ⟨⟨⟨⟨⟨⟨⟨⟨⟨n1, n2⟩, n3⟩, n4⟩, n5⟩, n6⟩, n7⟩, n8⟩, n9⟩, n10⟩ := h
  simp [updateLoop, n1, n2, n3, n4, n5, n6, n7, n8, n9, n10]

theorem loop_true_close (c : PatchCtx) (line : String) (rest : List String)
    (h : shaCloserLine line = true) :
    updateLoop c true (line :: rest) = secondShaLine :: updateLoop c false rest := by
  simp only [shaCloserLine, nonSpecial6, Bool.and_eq_true, Bool.not_eq_true'] at h
  obtain ⟨⟨⟨⟨⟨⟨n1, n2⟩, n3⟩, n4⟩, n5⟩, n6⟩, n7⟩ := h
  simp [updateLoop, n1, n2, n3, n4, n5, n6, n7]

theorem loop_true_append (c : PatchCtx) (mid rest : List String)
    (h : ∀ l ∈ mid, shaInteriorLine l = true) :
    updateLoop c true (mid ++ rest) = updateLoop c true rest := by
  induction mid with
  | nil => simp
  | cons l ls ih =>
    rw [List.cons_append, loop_true_drop c l _ (h l (List.mem_cons_self l ls))]
    exact ih (fun m hm => h m (List.mem_cons_of_mem l hm))

theorem ifb (a x : Bool) : (if a = true then x else false) = (a && x) := by
  cases a <;> simp

theorem ifb2 (w m v : Bool) : (if w = true then (m && v) else v) = ((!w || m) && v) := by
  cases w <;> simp

/-- Claim C1: the manual-release-bump flag is stated to be true exactly
when the aur snapshot matches the local version and commit, both rel
fields are present, and the aur rel integer is strictly higher than the
local rel integer.  On the input i1c the stated condition holds (aur rel
2, local rel 1, same version and commit, both rels present) yet the flag
computed by src/check.py lines 148-154 is false, because the code
compares in the opposite direction: int(local_rel) > int(aur_rel). -/
theorem aur_higher_rel_is_not_flagged :
    i1c.aur_version = some i1c.local_version ∧
    i1c.aur_commit = some i1c.local_commit ∧
    optTruthy i1c.aur_rel = true ∧ strTruthy i1c.local_rel = true ∧
    pyInt (Option.getD i1c.aur_rel "") > pyInt i1c.local_rel ∧
    is_manual_rel_update i1c = false := by decide

/-- Claim C1 (amended): the manual-release-bump flag is true exactly
when the aur snapshot's version equals the local version, the aur commit
equals the local commit, both rel fields are present (non-empty), and
the LOCAL rel integer is strictly higher than the aur rel integer
(src/check.py lines 148-154). -/
theorem is_manual_rel_update_iff (i : CheckInput) :
    is_manual_rel_update i = true ↔
      i.aur_version = some i.local_version ∧ i.aur_commit = some i.local_commit ∧
      (∃ r, i.aur_rel = some r ∧ r ≠ "" ∧ pyInt r < pyInt i.local_rel) ∧
      i.local_rel ≠ "" := by
  cases h : i.aur_rel with
  | none => simp [is_manual_rel_update, optTruthy, h]
  | some r =>
    simp [is_manual_rel_update, optTruthy, strTruthy, h, bne_iff_ne, and_assoc]
    tauto

/-- Witness for C1: on i1w (local rel 2, aur rel 1, matching version and
commit) the amended characterisation yields a true flag. -/
theorem is_manual_rel_update_iff_witness : is_manual_rel_update i1w = true :=
  (is_manual_rel_update_iff i1w).mpr
    ⟨rfl, rfl, ⟨"1", rfl, by decide, by decide⟩, by decide⟩

/-- Claim C2: on input i2 both the commit-change trigger and the
manual-release-bump trigger are true simultaneously in commit-based
mode, yet the decision record's new.version and new.commit are the LOCAL
values 1.0.0 and caaa, not the remote values 2.0.0 and cbbb: the manual
branch at src/check.py lines 188-192 is taken first, so commit-based
handling does not win. -/
theorem both_triggers_new_fields_from_local :
    commit_update_needed i2 = true ∧ is_manual_rel_update i2 = true ∧
    Option.map (fun o => (o.new_version, o.new_commit)) (check_decision cfg2 i2) =
      some ("1.0.0", "caaa") ∧
    i2.latest_version = "2.0.0" ∧ i2.latest_commit = "cbbb" ∧
    ("1.0.0", "caaa") ≠ ("2.0.0", "cbbb") := by decide

/-- Claim C2 (amended): in commit-based mode, whenever the
manual-release-bump trigger is true (in particular when the commit
trigger is true at the same time), manual-bump handling wins: the
decision record passes the local version, rel and commit through
unchanged and reports the update as needed
(src/check.py lines 186-192). -/
theorem manual_bump_branch_wins (cfg : CheckConfig) (i : CheckInput)
    (hcb : cfg.commit_based_updates = true) (hman : is_manual_rel_update i = true) :
    check_decision cfg i = some (mkOutput i true i.local_version i.local_rel i.local_commit) := by
  simp [check_decision, hcb, hman]

/-- Witness for C2: the amended theorem applied at the simultaneous-
trigger input i2. -/
theorem manual_bump_branch_wins_witness :
    cfg2.commit_based_updates = true ∧ is_manual_rel_update i2 = true ∧
    check_decision cfg2 i2 =
      some (mkOutput i2 true i2.local_version i2.local_rel i2.local_commit) := by
  have hman : is_manual_rel_update i2 = true := by decide
  exact ⟨rfl, hman, manual_bump_branch_wins cfg2 i2 rfl hman⟩

/-- Claim C3: for local 1.0.0 rel 2 commit C, aur 1.0.0 rel 1 commit C,
remote 1.0.0 commit C in commit-based mode, the claim states that
updateNeeded is reported false.  The code computes is_manual_rel_update
true and commit_update_needed false, but update_needed =
commit_update_needed or is_manual_rel_update (src/check.py line 161)
is therefore TRUE, refuting the claimed false report; new.rel does equal
local.rel. -/
theorem manual_bump_scenario_updateNeeded_true :
    is_manual_rel_update i3 = true ∧ commit_update_needed i3 = false ∧
    Option.map (fun o => o.update_needed) (check_decision cfg3 i3) = some true ∧
    Option.map (fun o => o.update_needed) (check_decision cfg3 i3) ≠ some false ∧
    Option.map (fun o => o.new_rel) (check_decision cfg3 i3) = some i3.local_rel := by decide

/-- Claim C3 (amended): on those inputs the detector computes
is_manual_rel_update = true, reports updateNeeded = TRUE (the manual
bump is itself an update trigger even with no commit or version delta),
and the decision record passes version, rel and commit through from
local, so new.rel equals local.rel unchanged. -/
theorem manual_bump_scenario_decision :
    is_manual_rel_update i3 = true ∧ commit_update_needed i3 = false ∧
    check_decision cfg3 i3 =
      some (mkOutput i3 true i3.local_version i3.local_rel i3.local_commit) := by decide

/-- Claim C4: in commit-based mode, for every update that is needed and
is not a manual bump (equivalently, the commit trigger fired and the
manual flag is false), new.version and new.commit equal the remote
values, and new.rel is the string 1 when the remote version differs from
the local version and the string form of local rel + 1 otherwise
(src/check.py lines 193-201). -/
theorem commit_update_new_fields (cfg : CheckConfig) (i : CheckInput)
    (hcb : cfg.commit_based_updates = true)
    (hman : is_manual_rel_update i = false)
    (hcun : commit_update_needed i = true) :
    check_decision cfg i = some (mkOutput i true i.latest_version
      (if i.latest_version != i.local_version then "1" else toString (pyInt i.local_rel + 1))
      i.latest_commit) := by
  simp [check_decision, hcb, hman, hcun]

/-- Witness for C4: the same-version rebuild instance i4 (local rel 1,
commit differs, version unchanged) yields new.rel 2 with the remote
commit. -/
theorem commit_update_new_fields_witness :
    is_manual_rel_update i4 = false ∧ commit_update_needed i4 = true ∧
    check_decision cfg4 i4 = some (mkOutput i4 true "1.0.0" "2" "c2bb") := by
  refine ⟨by decide, by decide, ?_⟩
  rw [commit_update_new_fields cfg4 i4 rfl (by decide) (by decide)]
  decide

/-- Claim C5: in version-based fallback mode, whenever the remote
version equals the local version but the (non-empty) remote commit
differs from the local commit, no version-based update applies and the
process takes the conflict branch of src/check.py lines 208-215:
it exits with failure before the decision record is written, modelled by
the none result (no decision record, hence no recipe mutation, which is
driven solely by that record). -/
theorem fallback_conflict_exits (cfg : CheckConfig) (i : CheckInput)
    (hcb : cfg.commit_based_updates = false)
    (hv : i.latest_version = i.local_version)
    (ht : strTruthy i.latest_commit = true)
    (hc : i.latest_commit ≠ i.local_commit) :
    check_decision cfg i = none := by
  have hvun : version_update_needed cfg i = false := by
    cases hp : cfg.version_protection <;> simp [version_update_needed, hp, hv]
  have hcun : commit_update_needed i = true := by
    simp [commit_update_needed, ht, bne_iff_ne, hc]
  simp [check_decision, hcb, hvun, hcun]

/-- Witness for C5: the conflict instance i5 (fallback mode, versions
equal, commits c1 and c2 differ) terminates with no decision record. -/
theorem fallback_conflict_exits_witness :
    cfg5.commit_based_updates = false ∧ i5.latest_version = i5.local_version ∧
    i5.latest_commit ≠ i5.local_commit ∧ check_decision cfg5 i5 = none := by
  exact ⟨rfl, rfl, by decide, fallback_conflict_exits cfg5 i5 rfl rfl (by decide) (by decide)⟩

/-- Claim C6: the claim states that for EVERY input line sequence the
patched sha512sums block contains exactly two entries.  On the
single-line input below, whose opening line carries its own closing
parenthesis, the loop of src/update_pkgbuild.py lines 257-290 replaces
the opening line, sets in_sha, and never meets a later closing line: the
output holds exactly one checksum entry and the fixed companion value is
never appended. -/
theorem sha_block_unterminated_single_entry :
    update_pkgbuild ctx6 ["sha512sums=(x)\n"] = [shaOpenLine ctx6] ∧
    secondShaLine ∉ update_pkgbuild ctx6 ["sha512sums=(x)\n"] ∧
    (update_pkgbuild ctx6 ["sha512sums=(x)\n"]).length = 1 := by decide

/-- Claim C6 (amended): for every recipe in which the lines before the
sha512sums opening line do not open a checksum block themselves, the
interior lines of the block match no rewritten field prefix and do not
close the block, and the block is closed by a line (matching no
rewritten field prefix) whose stripped text ends with a parenthesis, the
patched block consists of exactly two entries regardless of how many the
source block held: first the line holding the freshly computed SHA-512,
then the fixed hard-coded companion checksum line
(src/update_pkgbuild.py lines 273-279). -/
theorem sha_block_exactly_two_entries (c : PatchCtx) (pre mid post : List String)
    (opener closer : String)
    (hpre : ∀ l ∈ pre, pyStartsWith l "sha512sums=" = false)
    (hop : pyStartsWith opener "sha512sums=" = true)
    (hmid : ∀ l ∈ mid, shaInteriorLine l = true)
    (hcl : shaCloserLine closer = true) :
    update_pkgbuild c (pre ++ opener :: (mid ++ closer :: post)) =
      pre.map (rewriteLine c) ++
        shaOpenLine c :: secondShaLine :: updateLoop c false post := by
  unfold update_pkgbuild
  rw [loop_false_append c pre _ hpre, loop_open c opener _ false hop,
    loop_true_append c mid _ hmid, loop_true_close c closer _ hcl]

/-- Witness for C6: a three-entry source block collapses to the computed
hash plus the fixed companion entry. -/
theorem sha_block_exactly_two_entries_witness :
    (∀ l ∈ (["junk\n"] : List String), pyStartsWith l "sha512sums=" = false) ∧
    pyStartsWith "sha512sums=(zz\n" "sha512sums=" = true ∧
    (∀ l ∈ (["  ee\n", "  ff\n"] : List String), shaInteriorLine l = true) ∧
    shaCloserLine "  gg)\n" = true ∧
    update_pkgbuild ctx6
        (["junk\n"] ++ "sha512sums=(zz\n" :: (["  ee\n", "  ff\n"] ++ "  gg)\n" :: ["tail\n"])) =
      (["junk\n"] : List String).map (rewriteLine ctx6) ++
        shaOpenLine ctx6 :: secondShaLine :: updateLoop ctx6 false ["tail\n"] := by
  refine ⟨by decide, by decide, by decide, by decide, ?_⟩
  exact sha_block_exactly_two_entries ctx6 _ _ _ _ _ (by decide) (by decide) (by decide) (by decide)

/-- Claim C7: the claim states that a failure of the live network
URL-reachability probe never sets validationSuccessful to false.  With
every other outcome passing, the url_accessibility failure alone turns
the flag false (src/validate_pkgbuild.py lines 634-649 assign
validation_successful = False in the failing branch of check 15). -/
theorem url_probe_failure_flips_validation :
    validation_successful v7all = true ∧ validation_successful v7url = false := by decide

/-- Claim C7 (amended): validationSuccessful is the conjunction of the
load-bearing checks, which INCLUDE the live URL-reachability probe and
the tool-availability probe; the advisory checks (electron detection
being unavailable, the code.sh download and content probes, the actual
file checksum probe, the titlebar sed execution probe and the cursor.sh
transformation probe) never affect the flag, as their outcome fields do
not occur in the conjunction. -/
theorem validation_successful_conjunction (i : ValidationInputs) :
    validation_successful i =
      (i.version_found && i.version_format_ok && i.version_matches &&
       i.pkgrel_found && i.pkgrel_format_ok && i.pkgrel_is_one &&
       i.commit_found && i.commit_format_ok && i.commit_matches &&
       i.electron_expected &&
       i.checksum_found && i.checksum_format_ok && i.checksum_matches &&
       i.titlebar_present && i.deb_format_ok && i.extraction_ok &&
       i.binary_link_ok && i.cursor_sh_generation_ok && i.code_sh_source_ok &&
       (!i.electron_detection_working || i.electron_version_match) &&
       i.tools_available && i.all_urls_accessible && i.command_syntax_valid) := by
  unfold validation_successful
  simp only [ifb, ifb2, Bool.and_true]
  simp [Bool.and_assoc, Bool.and_comm, Bool.and_left_comm]

/-- Witness for C7: the conjunction theorem applied at v7tools, where
only the load-bearing tool check fails. -/
theorem validation_successful_conjunction_witness :
    validation_successful v7tools = false :=
  (validation_successful_conjunction v7tools).trans (by decide)

/-- Claim C8: the claim states that on every input on which no lookup
strategy yields a value the derived tag is electron28 and the pipeline
never raises and never aborts.  On the manifest lockC8 no strategy
yields a value, yet the strategy chain reaches the node_modules/electron
entry, whose version field is absent: the unguarded subscript at
src/update_pkgbuild.py line 95 raises KeyError, which is not in the
except tuple at line 120, escapes get_electron_version, and reaches the
top-level handler (lines 328-332) which exits 1 — the run aborts with no
electron28 fallback. -/
theorem unguarded_version_read_aborts :
    lookupDep lockC8.dependencies "electron" = none ∧
    lookupPkg lockC8.packages "" = none ∧
    (lookupPkg lockC8.packages "node_modules/electron").bind (fun e => e.version) = none ∧
    find_electron_version lockC8 = LookupResult.keyError ∧
    chooseElectron (some "1.93.1") [some lockC8] = none ∧
    chooseElectron (some "1.93.1") [some lockC8] ≠ some "electron28" := by decide

/-- Claim C8 (amended): whenever every attempt either fails to produce a
manifest or produces one on which the lookup chain yields no value by
the caught ValueError path (line 110) — that is, without reaching an
entry lacking its version field — the resolver returns None
(src/update_pkgbuild.py line 128), no exception escapes the pipeline,
and the patcher uses exactly the tag electron28 (lines 246-255).  When
the chain does reach an entry without a version field, the uncaught
KeyError aborts the whole patch run instead. -/
theorem electron_fallback_on_total_failure (vscode_version : Option String)
    (attempts : List (Option PackageLock))
    (h : ∀ a ∈ attempts,
      a = none ∨ ∃ d, a = some d ∧ find_electron_version d = LookupResult.noValue) :
    chooseElectron vscode_version attempts = some "electron28" := by
  have hg : get_electron_version attempts = ResolveOutcome.failed := by
    induction attempts with
    | nil => rfl
    | cons a rest ih =>
      rcases h a (List.mem_cons_self a rest) with rfl | ⟨d, rfl, hd⟩
      · exact ih (fun x hx => h x (List.mem_cons_of_mem _ hx))
      · simp only [get_electron_version, hd]
        exact ih (fun x hx => h x (List.mem_cons_of_mem _ hx))
  cases vscode_version <;> simp [chooseElectron, hg]

/-- Witness for C8: one unreachable attempt followed by one empty
manifest still produces electron28. -/
theorem electron_fallback_on_total_failure_witness :
    (∀ a ∈ ([none, some lock8] : List (Option PackageLock)),
      a = none ∨ ∃ d, a = some d ∧ find_electron_version d = LookupResult.noValue) ∧
    chooseElectron (some "1.93.1") [none, some lock8] = some "electron28" := by
  have h : ∀ a ∈ ([none, some lock8] : List (Option PackageLock)),
      a = none ∨ ∃ d, a = some d ∧ find_electron_version d = LookupResult.noValue := by
    intro a ha
    simp only [List.mem_cons, List.not_mem_nil, or_false] at ha
    rcases ha with rfl | rfl
    · exact Or.inl rfl
    · exact Or.inr ⟨lock8, rfl, rfl⟩
  exact ⟨h, electron_fallback_on_total_failure (some "1.93.1") _ h⟩

/-- Claim C9: the claim states that a manifest whose packages map has a
root entry without an electron dependency resolves via the
node_modules/electron strategy.  On lock9 the root packages entry exists
and carries no electron entry while packages node_modules/electron has
version 30.0.0, yet the lookup yields nothing: the strategy-3 branch of
src/update_pkgbuild.py line 94 sits on the elif chain of the strategy-2
shape condition (line 80) and is never reached. -/
theorem node_modules_not_reached :
    lookupPkg lock9.packages "" ≠ none ∧
    (lookupPkg lock9.packages "node_modules/electron").bind (fun e => e.version) =
      some "30.0.0" ∧
    find_electron_version lock9 = LookupResult.noValue ∧
    find_electron_version lock9 ≠ LookupResult.found "30.0.0" := by decide

/-- Claim C9 (amended): the lookup tries the top-level
dependencies.electron.version first; when that is absent and the
packages map has a root entry, the result is entirely determined by that
root entry (dependencies.electron, falling back to
devDependencies.electron, and nothing when both are absent): the
node_modules/electron strategy is consulted only when the root packages
entry is absent, so a manifest whose root entry lacks electron resolves
to no value even when packages node_modules/electron carries one. -/
theorem packages_root_blocks_strategy_three (d : PackageLock) (root : PackageEntry)
    (h1 : lookupDep d.dependencies "electron" = none)
    (h2 : lookupPkg d.packages "" = some root) :
    find_electron_version d =
      (match lookupStr root.dependencies "electron" with
       | some v => LookupResult.found v
       | none =>
         match lookupStr root.devDependencies "electron" with
         | some v => LookupResult.found v
         | none => LookupResult.noValue) := by
  cases hd : lookupStr root.dependencies "electron" with
  | some v => simp [find_electron_version, h1, h2, hd]
  | none =>
    cases hdd : lookupStr root.devDependencies "electron" with
    | some w => simp [find_electron_version, h1, h2, hd, hdd]
    | none => simp [find_electron_version, h1, h2, hd, hdd]

/-- Witness for C9: the amended theorem applied to lock9 and its empty
root entry, evaluating to no value. -/
theorem packages_root_blocks_strategy_three_witness :
    lookupDep lock9.dependencies "electron" = none ∧
    lookupPkg lock9.packages "" = some root9 ∧
    find_electron_version lock9 =
      (match lookupStr root9.dependencies "electron" with
       | some v => LookupResult.found v
       | none =>
         match lookupStr root9.devDependencies "electron" with
         | some v => LookupResult.found v
         | none => LookupResult.noValue) := by
  exact ⟨rfl, by decide, packages_root_blocks_strategy_three lock9 root9 rfl (by decide)⟩

/-- Claim C10: holding the artifact hash and the resolved electron tag
fixed in the context, the line-rewrite pass of src/update_pkgbuild.py
lines 257-290 is idempotent: applied to its own output it returns
byte-identical lines.  The hypothesis records that the rewritten
electron tag line does not itself end, after stripping, with a closing
parenthesis, which holds of every tag the resolver can produce
(electron followed by a major number, or the electron28 fallback). -/
theorem update_pkgbuild_idempotent (c : PatchCtx)
    (he : pyEndsWith (pyStrip (electronLine c)) ")" = false) (xs : List String) :
    update_pkgbuild c (update_pkgbuild c xs) = update_pkgbuild c xs :=
  updateLoop_idem c he xs false

/-- Witness for C10: idempotence at a concrete context and recipe
containing rewritten fields, pass-through lines and a sha512sums
block. -/
theorem update_pkgbuild_idempotent_witness :
    pyEndsWith (pyStrip (electronLine ctx10)) ")" = false ∧
    update_pkgbuild ctx10 (update_pkgbuild ctx10 lines10) = update_pkgbuild ctx10 lines10 := by
  have he : pyEndsWith (pyStrip (electronLine ctx10)) ")" = false := by decide
  exact ⟨he, update_pkgbuild_idempotent ctx10 he lines10⟩
